import Mathlib

/-
Verification of the single-holdout cross-validation harness
(`mlpack/core/cv/simple_cv_impl.hpp`, class `SimpleCV`).

The state of a `SimpleCV` object is embedded as `CVState`: the stored
dataset (`xs`, `ys`, optional `weights`), the partitions computed at
construction, and the owned model slot (`modelPtr`).  Matrices whose
columns are data points become lists of points; `n_cols`/`n_elem`
become `List.length`.  `double` parameters and scores become `ℚ`;
C++ exceptions become `Except`.  The external training and metric
capabilities are parameters of the evaluation functions.
-/

namespace SimpleCV

/-- Errors raised by the component: `std::invalid_argument` and
`std::logic_error` in the source. -/
inductive CVError where
  | invalidParameter : String → CVError
  | logicError : String → CVError
deriving DecidableEq

/-- C's `round` from `<cmath>`: rounds to the nearest integer, with
halfway cases rounded away from zero. -/
def roundHalfAwayFromZero (x : ℚ) : Int :=
  if 0 ≤ x then ⌊x + 1/2⌋ else ⌈x - 1/2⌉

/-- Modelled from the spec: `GetSubset` (defined in the shared CV base
helper, which is not part of the provided source) returns the contiguous
inclusive subrange `[firstIdx, lastIdx]` of the stored points, the
columns `firstIdx .. lastIdx` of the matrix. -/
def GetSubset {α : Type} (m : List α) (firstIdx lastIdx : Nat) : List α :=
  (m.drop firstIdx).take (lastIdx - firstIdx + 1)

/-- Modelled from the spec: `CVBase::AssertDataConsistency` (not in the
provided source) validates that the feature count and the target count
are equal, raising an invalid-parameter error otherwise. -/
def AssertDataConsistency (xsLen ysLen : Nat) : Except CVError Unit :=
  if ysLen = xsLen then .ok ()
  else .error (.invalidParameter "CVBase: number of data points and predictions differ")

/-- Modelled from the spec: the weighted overload of
`CVBase::AssertDataConsistency` (not in the provided source) additionally
validates that the weight count equals the target count. -/
def AssertDataConsistencyWeighted (xsLen ysLen wsLen : Nat) : Except CVError Unit :=
  if ysLen = xsLen then
    if wsLen = ysLen then .ok ()
    else .error (.invalidParameter "CVBase: number of data points and weights differ")
  else .error (.invalidParameter "CVBase: number of data points and predictions differ")

/-- The member state of a `SimpleCV` object: the copied dataset, the
partitions produced at construction, and the owned model slot.
`X`, `Y`, `W`, `M` are the point, prediction, weight and model types. -/
structure CVState (X Y W M : Type) where
  xs : List X
  ys : List Y
  weights : List W
  trainingXs : List X
  trainingYs : List Y
  validationXs : List X
  validationYs : List Y
  trainingWeights : List W
  modelPtr : Option M
deriving DecidableEq

/-- `SimpleCV::CalculateAndAssertNumberOfTrainingPoints` (lines 145-166):
validates the parameters and computes
`trainingPoints = round(xs.n_cols * (1.0 - validationSize))`. -/
def CalculateAndAssertNumberOfTrainingPoints (nCols : Nat) (validationSize : ℚ) :
    Except CVError Nat :=
  if validationSize < 0 ∨ 1 < validationSize then
    .error (.invalidParameter
      "SimpleCV: the validationSize parameter should be more than 0 and less than 1")
  else if nCols < 2 then
    .error (.invalidParameter "SimpleCV: 2 or more data points are expected")
  else
    let trainingPoints : Nat :=
      (roundHalfAwayFromZero ((nCols : ℚ) * (1 - validationSize))).toNat
    if trainingPoints = 0 ∨ trainingPoints = nCols then
      .error (.invalidParameter
        "SimpleCV: the validationSize parameter is either too small or too big")
    else .ok trainingPoints

/-- `SimpleCV::InitTrainingAndValidationSets` (lines 118-138): computes
the number of training points and slices `xs` and `ys` into the training
and validation partitions. -/
def InitTrainingAndValidationSets {X Y W M : Type} (st : CVState X Y W M)
    (validationSize : ℚ) : Except CVError (CVState X Y W M) :=
  match CalculateAndAssertNumberOfTrainingPoints st.xs.length validationSize with
  | .error e => .error e
  | .ok numberOfTrainingPoints =>
      .ok { st with
        trainingXs := GetSubset st.xs 0 (numberOfTrainingPoints - 1)
        trainingYs := GetSubset st.ys 0 (numberOfTrainingPoints - 1)
        validationXs := GetSubset st.xs numberOfTrainingPoints (st.xs.length - 1)
        validationYs := GetSubset st.ys numberOfTrainingPoints (st.xs.length - 1) }

/-- The freshly constructed member state before `Init` runs: the dataset
is stored and every partition is still empty, the model slot empty. -/
def initialState {X Y W M : Type} (xs : List X) (ys : List Y) (ws : List W) :
    CVState X Y W M :=
  { xs := xs, ys := ys, weights := ws
    trainingXs := [], trainingYs := [], validationXs := [], validationYs := []
    trainingWeights := [], modelPtr := none }

/-- The unweighted `SimpleCV::Init` (lines 70-90): stores `xs` and `ys`,
asserts data consistency, and builds the training/validation partitions.
Run by the constructor, so this is construction. -/
def Init {X Y W M : Type} (xs : List X) (ys : List Y) (validationSize : ℚ) :
    Except CVError (CVState X Y W M) :=
  match AssertDataConsistency xs.length ys.length with
  | .error e => .error e
  | .ok _ => InitTrainingAndValidationSets (initialState xs ys []) validationSize

/-- The weighted `SimpleCV::Init` overload (lines 92-116): additionally
stores `weights` and slices `trainingWeights = GetSubset(weights, 0,
trainingXs.n_cols - 1)` after the partitions are built. -/
def InitWeighted {X Y W M : Type} (xs : List X) (ys : List Y) (ws : List W)
    (validationSize : ℚ) : Except CVError (CVState X Y W M) :=
  match AssertDataConsistencyWeighted xs.length ys.length ws.length with
  | .error e => .error e
  | .ok _ =>
      match InitTrainingAndValidationSets (initialState xs ys ws) validationSize with
      | .error e => .error e
      | .ok st =>
          .ok { st with trainingWeights := GetSubset ws 0 (st.trainingXs.length - 1) }

/-- `SimpleCV::Model` (lines 52-68): throws a logic error when no model
has been stored, otherwise returns the stored model. -/
def Model {X Y W M : Type} (st : CVState X Y W M) : Except CVError M :=
  match st.modelPtr with
  | none => .error (.logicError
      "SimpleCV::Model(): attempted to access an uninitialized model")
  | some m => .ok m

/-- The unweighted `SimpleCV::TrainAndEvaluate` (lines 168-183): trains a
model on the training partition (storing it into `modelPtr`), then scores
it with the metric on the validation partition.  `train` is the external
training capability `CVBase::Train` with the forwarded `args...` already
applied; `metricEvaluate` is the external `Metric::Evaluate`.  An error
of either capability propagates; the returned state is the object state
after the call. -/
def TrainAndEvaluate {X Y W M ε : Type}
    (train : List X → List Y → Except ε M)
    (metricEvaluate : M → List X → List Y → Except ε ℚ)
    (st : CVState X Y W M) : Except ε ℚ × CVState X Y W M :=
  match train st.trainingXs st.trainingYs with
  | .error e => (.error e, st)
  | .ok model =>
      let st' := { st with modelPtr := some model }
      (metricEvaluate model st'.validationXs st'.validationYs, st')

/-- The weighted `SimpleCV::TrainAndEvaluate` overload (lines 185-203):
if `trainingWeights.n_elem > 0` it trains with the weighted capability
`(trainingXs, trainingYs, trainingWeights, args...)`, otherwise with the
unweighted one, then scores on the validation partition. -/
def TrainAndEvaluateWeighted {X Y W M ε : Type}
    (trainWeighted : List X → List Y → List W → Except ε M)
    (train : List X → List Y → Except ε M)
    (metricEvaluate : M → List X → List Y → Except ε ℚ)
    (st : CVState X Y W M) : Except ε ℚ × CVState X Y W M :=
  match
    (if 0 < st.trainingWeights.length then
      trainWeighted st.trainingXs st.trainingYs st.trainingWeights
    else
      train st.trainingXs st.trainingYs) with
  | .error e => (.error e, st)
  | .ok model =>
      let st' := { st with modelPtr := some model }
      (metricEvaluate model st'.validationXs st'.validationYs, st')

/-- `SimpleCV::Evaluate` (lines 37-50) forwards to `TrainAndEvaluate`. -/
def Evaluate {X Y W M ε : Type}
    (train : List X → List Y → Except ε M)
    (metricEvaluate : M → List X → List Y → Except ε ℚ)
    (st : CVState X Y W M) : Except ε ℚ × CVState X Y W M :=
  TrainAndEvaluate train metricEvaluate st

/-- The value of line 159, `round(xs.n_cols * (1.0 - validationSize))`,
as a standalone function of the column count, for use in statements. -/
def numberOfTrainingPointsOf (n : Nat) (v : ℚ) : Nat :=
  (roundHalfAwayFromZero ((n : ℚ) * (1 - v))).toNat

/-- The bounds under which an inclusive slice `GetSubset m firstIdx
lastIdx` is within the sequence: a nonempty range whose endpoints are
valid indices. -/
def subsetInBounds {α : Type} (m : List α) (firstIdx lastIdx : Nat) : Prop :=
  firstIdx ≤ lastIdx ∧ lastIdx < m.length

instance {α : Type} (m : List α) (firstIdx lastIdx : Nat) :
    Decidable (subsetInBounds m firstIdx lastIdx) := by
  unfold subsetInBounds; infer_instance

/-- A four-point concrete dataset used to instantiate the theorems. -/
def xs4 : List Nat := [0, 1, 2, 3]

/-- Predictions for `xs4`. -/
def ys4 : List Nat := [10, 11, 12, 13]

/-- Weights for `xs4`. -/
def ws4 : List Nat := [5, 6, 7, 8]

/-- The state produced by unweighted construction over `xs4`, `ys4` with
validation fraction `1/2`. -/
def st4 : CVState Nat Nat Nat Nat :=
  { xs := [0, 1, 2, 3], ys := [10, 11, 12, 13], weights := []
    trainingXs := [0, 1], trainingYs := [10, 11]
    validationXs := [2, 3], validationYs := [12, 13]
    trainingWeights := [], modelPtr := none }

/-- The state produced by weighted construction over `xs4`, `ys4`, `ws4`
with validation fraction `1/2`. -/
def st4w : CVState Nat Nat Nat Nat :=
  { xs := [0, 1, 2, 3], ys := [10, 11, 12, 13], weights := [5, 6, 7, 8]
    trainingXs := [0, 1], trainingYs := [10, 11]
    validationXs := [2, 3], validationYs := [12, 13]
    trainingWeights := [5, 6], modelPtr := none }

/-- `st4` after a model `m` has been stored. -/
def st4With (m : Nat) : CVState Nat Nat Nat Nat :=
  { st4 with modelPtr := some m }

/-- A ten-point concrete dataset for the `N = 10`, `v = 0.3` scenario. -/
def xs10 : List Nat := [0, 1, 2, 3, 4, 5, 6, 7, 8, 9]

/-- The state produced by construction over `xs10` (used as both points
and predictions) with validation fraction `3/10`. -/
def st10 : CVState Nat Nat Nat Nat :=
  { xs := [0, 1, 2, 3, 4, 5, 6, 7, 8, 9], ys := [0, 1, 2, 3, 4, 5, 6, 7, 8, 9]
    weights := []
    trainingXs := [0, 1, 2, 3, 4, 5, 6], trainingYs := [0, 1, 2, 3, 4, 5, 6]
    validationXs := [7, 8, 9], validationYs := [7, 8, 9]
    trainingWeights := [], modelPtr := none }

/-- A two-point concrete dataset: the minimal valid case. -/
def xs2 : List Nat := [0, 1]

/-- Predictions for `xs2`. -/
def ys2 : List Nat := [20, 21]

/-- The state produced by construction over `xs2`, `ys2` with validation
fraction `1/2`. -/
def st2 : CVState Nat Nat Nat Nat :=
  { xs := [0, 1], ys := [20, 21], weights := []
    trainingXs := [0], trainingYs := [20]
    validationXs := [1], validationYs := [21]
    trainingWeights := [], modelPtr := none }

/-- A training capability that always produces the model `m`. -/
def trainConst (m : Nat) : List Nat → List Nat → Except String Nat :=
  fun _ _ => .ok m

/-- A training capability that always fails. -/
def trainFail : List Nat → List Nat → Except String Nat :=
  fun _ _ => .error "training failure"

/-- A weighted training capability: the model records how many weights
it was given. -/
def trainWCount : List Nat → List Nat → List Nat → Except String Nat :=
  fun _ _ w => .ok (100 + w.length)

/-- A metric capability that always produces the score `s`. -/
def metricConst (s : ℚ) : Nat → List Nat → List Nat → Except String ℚ :=
  fun _ _ _ => .ok s

/-- A metric capability that always fails. -/
def metricFail : Nat → List Nat → List Nat → Except String ℚ :=
  fun _ _ _ => .error "metric failure"

section Lemmas

variable {X Y W M ε : Type}

lemma calculate_eq (n : Nat) (v : ℚ) :
    CalculateAndAssertNumberOfTrainingPoints n v =
      if v < 0 ∨ 1 < v then
        .error (.invalidParameter
          "SimpleCV: the validationSize parameter should be more than 0 and less than 1")
      else if n < 2 then
        .error (.invalidParameter "SimpleCV: 2 or more data points are expected")
      else if numberOfTrainingPointsOf n v = 0 ∨ numberOfTrainingPointsOf n v = n then
        .error (.invalidParameter
          "SimpleCV: the validationSize parameter is either too small or too big")
      else .ok (numberOfTrainingPointsOf n v) := rfl

lemma numberOfTrainingPointsOf_le (n : Nat) (v : ℚ) (hv0 : 0 ≤ v) (hv1 : v ≤ 1) :
    numberOfTrainingPointsOf n v ≤ n := by
  unfold numberOfTrainingPointsOf roundHalfAwayFromZero
  have hx0 : (0 : ℚ) ≤ (n : ℚ) * (1 - v) := by
    apply mul_nonneg (by positivity)
    linarith
  rw [if_pos hx0]
  have hxn : (n : ℚ) * (1 - v) ≤ (n : ℚ) := by nlinarith [Nat.cast_nonneg (α := ℚ) n]
  have hfloor : ⌊(n : ℚ) * (1 - v) + 1/2⌋ ≤ (n : Int) := by
    have hlt : (n : ℚ) * (1 - v) + 1/2 < ((n : Int) + 1 : Int) := by push_cast; linarith
    have := Int.floor_lt.mpr hlt
    omega
  omega

lemma calculate_ok_spec {n k : Nat} {v : ℚ}
    (h : CalculateAndAssertNumberOfTrainingPoints n v = .ok k) :
    0 ≤ v ∧ v ≤ 1 ∧ 2 ≤ n ∧ k = numberOfTrainingPointsOf n v ∧ 1 ≤ k ∧ k < n := by
  rw [calculate_eq] at h
  split_ifs at h with h1 h2 h3
  push_neg at h1
  simp only [Except.ok.injEq] at h
  push_neg at h3
  have hle := numberOfTrainingPointsOf_le n v h1.1 h1.2
  refine ⟨h1.1, h1.2, by omega, h.symm, by omega, by omega⟩

lemma GetSubset_zero_take {α : Type} (m : List α) (k : Nat) (hk : 1 ≤ k) :
    GetSubset m 0 (k - 1) = m.take k := by
  unfold GetSubset
  rw [List.drop_zero]
  congr 1
  omega

lemma GetSubset_drop {α : Type} (m : List α) (k n : Nat)
    (hk : k ≤ n - 1) (hn : 1 ≤ n) :
    GetSubset m k (n - 1) = (m.drop k).take (n - k) := by
  unfold GetSubset
  congr 1
  omega

lemma GetSubset_drop_all {α : Type} (m : List α) (k n : Nat)
    (hk : k ≤ n - 1) (hm : m.length = n) (hn : 1 ≤ n) :
    GetSubset m k (n - 1) = m.drop k := by
  rw [GetSubset_drop m k n hk hn]
  apply List.take_of_length_le
  simp [hm]

lemma Init_ok {xs : List X} {ys : List Y} {v : ℚ} {st : CVState X Y W M}
    (h : Init xs ys v = .ok st) :
    ∃ k, CalculateAndAssertNumberOfTrainingPoints xs.length v = .ok k ∧
      ys.length = xs.length ∧ 1 ≤ k ∧ k < xs.length ∧
      st = { xs := xs, ys := ys, weights := []
             trainingXs := xs.take k, trainingYs := ys.take k
             validationXs := xs.drop k, validationYs := ys.drop k
             trainingWeights := [], modelPtr := none } := by
  unfold Init AssertDataConsistency at h
  split_ifs at h with hys
  unfold InitTrainingAndValidationSets at h
  simp only [initialState] at h
  rcases hc : CalculateAndAssertNumberOfTrainingPoints xs.length v with e | k
  · rw [hc] at h; exact absurd h (by simp)
  · rw [hc] at h
    simp only [Except.ok.injEq] at h
    obtain ⟨hv0, hv1, hn2, hkdef, hk1, hkn⟩ := calculate_ok_spec hc
    rw [GetSubset_zero_take xs k hk1, GetSubset_zero_take ys k hk1,
      GetSubset_drop_all xs k xs.length (by omega) rfl (by omega),
      GetSubset_drop_all ys k xs.length (by omega) hys (by omega)] at h
    exact ⟨k, rfl, hys, hk1, hkn, h.symm⟩

lemma InitWeighted_ok {xs : List X} {ys : List Y} {ws : List W} {v : ℚ}
    {st : CVState X Y W M} (h : InitWeighted xs ys ws v = .ok st) :
    ∃ k, CalculateAndAssertNumberOfTrainingPoints xs.length v = .ok k ∧
      ys.length = xs.length ∧ ws.length = xs.length ∧ 1 ≤ k ∧ k < xs.length ∧
      st = { xs := xs, ys := ys, weights := ws
             trainingXs := xs.take k, trainingYs := ys.take k
             validationXs := xs.drop k, validationYs := ys.drop k
             trainingWeights := ws.take k, modelPtr := none } := by
  unfold InitWeighted AssertDataConsistencyWeighted at h
  split_ifs at h with hys hws
  unfold InitTrainingAndValidationSets at h
  simp only [initialState] at h
  rcases hc : CalculateAndAssertNumberOfTrainingPoints xs.length v with e | k
  · rw [hc] at h; exact absurd h (by simp)
  · rw [hc] at h
    simp only [Except.ok.injEq] at h
    obtain ⟨hv0, hv1, hn2, hkdef, hk1, hkn⟩ := calculate_ok_spec hc
    rw [GetSubset_zero_take xs k hk1, GetSubset_zero_take ys k hk1,
      GetSubset_drop_all xs k xs.length (by omega) rfl (by omega),
      GetSubset_drop_all ys k xs.length (by omega) hys (by omega)] at h
    have htxlen : (xs.take k).length = k := by
      rw [List.length_take]
      omega
    rw [htxlen, GetSubset_zero_take ws k hk1] at h
    exact ⟨k, rfl, hys, by omega, hk1, hkn, h.symm⟩

lemma numberOfTrainingPointsOf_zero (n : Nat) : numberOfTrainingPointsOf n 0 = n := by
  unfold numberOfTrainingPointsOf roundHalfAwayFromZero
  have hx : ((n : ℚ) * (1 - 0) + 1/2) = (n : ℚ) + 1/2 := by ring
  rw [if_pos (by positivity), hx]
  have hfloor : ⌊(n : ℚ) + 1/2⌋ = (n : Int) := by
    rw [Int.floor_eq_iff]
    constructor
    · push_cast
      linarith
    · push_cast
      linarith
  rw [hfloor]
  omega

lemma numberOfTrainingPointsOf_one (n : Nat) : numberOfTrainingPointsOf n 1 = 0 := by
  unfold numberOfTrainingPointsOf roundHalfAwayFromZero
  have hx : ((n : ℚ) * (1 - 1) + 1/2) = 1/2 := by ring
  rw [if_pos (by positivity), hx]
  norm_num

lemma kOf_half_4 : numberOfTrainingPointsOf 4 (1/2) = 2 := by
  unfold numberOfTrainingPointsOf roundHalfAwayFromZero
  norm_num
  rfl

lemma init4 : (Init xs4 ys4 (1/2) : Except CVError (CVState Nat Nat Nat Nat)) = .ok st4 := by
  have h : ((4 : ℚ) * (1 - 1/2)) = 2 := by norm_num
  simp only [Init, AssertDataConsistency, initialState, InitTrainingAndValidationSets,
    CalculateAndAssertNumberOfTrainingPoints, roundHalfAwayFromZero, xs4, ys4, st4,
    List.length_cons, List.length_nil]
  norm_num [h, GetSubset]
  rfl

lemma init4w : (InitWeighted xs4 ys4 ws4 (1/2) : Except CVError (CVState Nat Nat Nat Nat)) =
    .ok st4w := by
  have h : ((4 : ℚ) * (1 - 1/2)) = 2 := by norm_num
  simp only [InitWeighted, AssertDataConsistencyWeighted, initialState,
    InitTrainingAndValidationSets, CalculateAndAssertNumberOfTrainingPoints,
    roundHalfAwayFromZero, xs4, ys4, ws4, st4w, List.length_cons, List.length_nil]
  norm_num [h, GetSubset]
  rfl

end Lemmas

section Claims

variable {X Y W M ε : Type}

/-- Claim C1: for every dataset of `N ≥ 2` points (with matching
prediction count) and every validation fraction `v ∈ (0,1)` such that
`k = round(N*(1-v))` is strictly between `0` and `N`, construction
succeeds and produces Training = points `[0, k-1]` and Validation =
points `[k, N-1]`; the two sizes sum to `N`, and concatenating Training
then Validation (in order) reconstructs the original dataset exactly. -/
theorem C1_holdout_split_reconstructs (xs : List X) (ys : List Y) (v : ℚ)
    (hys : ys.length = xs.length) (hN : 2 ≤ xs.length)
    (hv0 : 0 < v) (hv1 : v < 1)
    (hk0 : 0 < numberOfTrainingPointsOf xs.length v)
    (hkN : numberOfTrainingPointsOf xs.length v < xs.length) :
    ∃ st : CVState X Y W M, Init xs ys v = .ok st ∧
      st.trainingXs = xs.take (numberOfTrainingPointsOf xs.length v) ∧
      st.validationXs = xs.drop (numberOfTrainingPointsOf xs.length v) ∧
      st.trainingYs = ys.take (numberOfTrainingPointsOf xs.length v) ∧
      st.validationYs = ys.drop (numberOfTrainingPointsOf xs.length v) ∧
      st.trainingXs.length + st.validationXs.length = xs.length ∧
      st.trainingXs ++ st.validationXs = xs ∧
      st.trainingYs ++ st.validationYs = ys := by
  have hc : CalculateAndAssertNumberOfTrainingPoints xs.length v =
      .ok (numberOfTrainingPointsOf xs.length v) := by
    rw [calculate_eq]
    rw [if_neg (by push_neg; constructor <;> linarith)]
    rw [if_neg (by omega)]
    rw [if_neg (by omega)]
  refine ⟨{ xs := xs, ys := ys, weights := []
            trainingXs := xs.take (numberOfTrainingPointsOf xs.length v)
            trainingYs := ys.take (numberOfTrainingPointsOf xs.length v)
            validationXs := xs.drop (numberOfTrainingPointsOf xs.length v)
            validationYs := ys.drop (numberOfTrainingPointsOf xs.length v)
            trainingWeights := [], modelPtr := none }, ?_, rfl, rfl, rfl, rfl, ?_, ?_, ?_⟩
  · simp only [Init, AssertDataConsistency, if_pos hys, InitTrainingAndValidationSets,
      initialState, hc]
    rw [GetSubset_zero_take xs _ (by omega), GetSubset_zero_take ys _ (by omega),
      GetSubset_drop_all xs _ xs.length (by omega) rfl (by omega),
      GetSubset_drop_all ys _ xs.length (by omega) hys (by omega)]
  · simp only [List.length_take, List.length_drop]
    omega
  · exact List.take_append_drop _ xs
  · exact List.take_append_drop _ ys

theorem C1_holdout_split_reconstructs_witness :
    (ys4.length = xs4.length ∧ 2 ≤ xs4.length ∧ (0 : ℚ) < 1/2 ∧ (1 : ℚ)/2 < 1 ∧
      0 < numberOfTrainingPointsOf xs4.length (1/2) ∧
      numberOfTrainingPointsOf xs4.length (1/2) < xs4.length) ∧
    (∃ st : CVState Nat Nat Nat Nat, Init xs4 ys4 (1/2) = .ok st ∧
      st.trainingXs = xs4.take (numberOfTrainingPointsOf xs4.length (1/2)) ∧
      st.validationXs = xs4.drop (numberOfTrainingPointsOf xs4.length (1/2)) ∧
      st.trainingYs = ys4.take (numberOfTrainingPointsOf xs4.length (1/2)) ∧
      st.validationYs = ys4.drop (numberOfTrainingPointsOf xs4.length (1/2)) ∧
      st.trainingXs.length + st.validationXs.length = xs4.length ∧
      st.trainingXs ++ st.validationXs = xs4 ∧
      st.trainingYs ++ st.validationYs = ys4) :=
  ⟨⟨rfl, by decide, by norm_num, by norm_num,
      by rw [show xs4.length = 4 from rfl, kOf_half_4]; decide,
      by rw [show xs4.length = 4 from rfl, kOf_half_4]; decide⟩,
    C1_holdout_split_reconstructs xs4 ys4 (1/2) rfl (by decide) (by norm_num) (by norm_num)
      (by rw [show xs4.length = 4 from rfl, kOf_half_4]; decide)
      (by rw [show xs4.length = 4 from rfl, kOf_half_4]; decide)⟩

/-- Claim C2: for a consistent dataset, construction raises an
invalid-parameter error if and only if the validation fraction `v` lies
outside the open interval `(0,1)` (including `v = 0` and `v = 1`), or
the dataset has fewer than 2 points, or `k = round(N*(1-v))` equals `0`
or `N`; moreover every construction failure is an invalid-parameter
error, raised synchronously by `Init` (which the constructor runs). -/
theorem C2_construction_error_iff (xs : List X) (ys : List Y) (v : ℚ)
    (hys : ys.length = xs.length) :
    ((∃ e, (Init xs ys v : Except CVError (CVState X Y W M)) = .error e) ↔
      (v ≤ 0 ∨ 1 ≤ v ∨ xs.length < 2 ∨
        numberOfTrainingPointsOf xs.length v = 0 ∨
        numberOfTrainingPointsOf xs.length v = xs.length)) ∧
    ∀ e, (Init xs ys v : Except CVError (CVState X Y W M)) = .error e →
      ∃ msg, e = CVError.invalidParameter msg := by
  rcases hc : CalculateAndAssertNumberOfTrainingPoints xs.length v with e | k
  · have hInit : (Init xs ys v : Except CVError (CVState X Y W M)) = .error e := by
      simp only [Init, AssertDataConsistency, if_pos hys, InitTrainingAndValidationSets,
        initialState, hc]
    have hcond : v ≤ 0 ∨ 1 ≤ v ∨ xs.length < 2 ∨
        numberOfTrainingPointsOf xs.length v = 0 ∨
        numberOfTrainingPointsOf xs.length v = xs.length := by
      rw [calculate_eq] at hc
      split_ifs at hc with h1 h2 h3
      · rcases h1 with h | h
        · exact Or.inl (le_of_lt h)
        · exact Or.inr (Or.inl (le_of_lt h))
      · exact Or.inr (Or.inr (Or.inl h2))
      · rcases h3 with h | h
        · exact Or.inr (Or.inr (Or.inr (Or.inl h)))
        · exact Or.inr (Or.inr (Or.inr (Or.inr h)))
    have hmsg : ∃ msg, e = CVError.invalidParameter msg := by
      rw [calculate_eq] at hc
      split_ifs at hc
      · exact ⟨_, (Except.error.inj hc).symm⟩
      · exact ⟨_, (Except.error.inj hc).symm⟩
      · exact ⟨_, (Except.error.inj hc).symm⟩
    refine ⟨⟨fun _ => hcond, fun _ => ⟨e, hInit⟩⟩, ?_⟩
    intro e' he'
    rw [hInit] at he'
    exact Except.error.inj he' ▸ hmsg
  · have hInit : (Init xs ys v : Except CVError (CVState X Y W M)) =
        .ok { xs := xs, ys := ys, weights := []
              trainingXs := GetSubset xs 0 (k - 1), trainingYs := GetSubset ys 0 (k - 1)
              validationXs := GetSubset xs k (xs.length - 1)
              validationYs := GetSubset ys k (xs.length - 1)
              trainingWeights := [], modelPtr := none } := by
      simp only [Init, AssertDataConsistency, if_pos hys, InitTrainingAndValidationSets,
        initialState, hc]
    obtain ⟨hv0, hv1, hn2, hkdef, hk1, hkn⟩ := calculate_ok_spec hc
    refine ⟨⟨?_, ?_⟩, ?_⟩
    · rintro ⟨e, he⟩
      rw [hInit] at he
      exact absurd he (by simp)
    · intro hcond
      exfalso
      rcases hcond with h | h | h | h | h
      · have hveq : v = 0 := le_antisymm h hv0
        rw [hveq] at hkdef
        rw [numberOfTrainingPointsOf_zero xs.length] at hkdef
        omega
      · have hveq : v = 1 := le_antisymm hv1 h
        rw [hveq] at hkdef
        rw [numberOfTrainingPointsOf_one xs.length] at hkdef
        omega
      · omega
      · omega
      · omega
    · intro e' he'
      rw [hInit] at he'
      exact absurd he' (by simp)

theorem C2_construction_error_iff_witness :
    ((∃ e, (Init xs4 ys4 (1/2) : Except CVError (CVState Nat Nat Nat Nat)) = .error e) ↔
      ((1 : ℚ)/2 ≤ 0 ∨ 1 ≤ (1 : ℚ)/2 ∨ xs4.length < 2 ∨
        numberOfTrainingPointsOf xs4.length (1/2) = 0 ∨
        numberOfTrainingPointsOf xs4.length (1/2) = xs4.length)) ∧
    ∀ e, (Init xs4 ys4 (1/2) : Except CVError (CVState Nat Nat Nat Nat)) = .error e →
      ∃ msg, e = CVError.invalidParameter msg :=
  C2_construction_error_iff xs4 ys4 (1/2) rfl

/-- Claim C3: for every dataset constructed with weights, every
`Evaluate` call invokes the training routine in its weighted form with
`(trainingXs, trainingYs, trainingWeights)`: the branch condition
`trainingWeights.n_elem > 0` is fixed true at construction (the training
weight slice has `k ≥ 1` elements), so the result never depends on the
unweighted capability nor on anything chosen at call time. -/
theorem C3_weighted_dispatch_fixed_at_construction
    (xs : List X) (ys : List Y) (ws : List W) (v : ℚ) (st : CVState X Y W M)
    (h : InitWeighted xs ys ws v = .ok st)
    (trainWeighted : List X → List Y → List W → Except ε M)
    (train train' : List X → List Y → Except ε M)
    (metricEvaluate : M → List X → List Y → Except ε ℚ) :
    0 < st.trainingWeights.length ∧
    TrainAndEvaluateWeighted trainWeighted train metricEvaluate st =
      (match trainWeighted st.trainingXs st.trainingYs st.trainingWeights with
       | .error e => (.error e, st)
       | .ok model => (metricEvaluate model st.validationXs st.validationYs,
           { st with modelPtr := some model })) ∧
    TrainAndEvaluateWeighted trainWeighted train metricEvaluate st =
      TrainAndEvaluateWeighted trainWeighted train' metricEvaluate st := by
  obtain ⟨k, hc, hys, hws, hk1, hkn, hst⟩ := InitWeighted_ok h
  have hpos : 0 < st.trainingWeights.length := by
    rw [hst]
    simp only [List.length_take]
    omega
  refine ⟨hpos, ?_, ?_⟩
  · unfold TrainAndEvaluateWeighted
    rw [if_pos hpos]
  · unfold TrainAndEvaluateWeighted
    rw [if_pos hpos, if_pos hpos]

theorem C3_weighted_dispatch_fixed_at_construction_witness :
    0 < st4w.trainingWeights.length ∧
    TrainAndEvaluateWeighted trainWCount (trainConst 99) (metricConst 0) st4w =
      (match trainWCount st4w.trainingXs st4w.trainingYs st4w.trainingWeights with
       | .error e => (.error e, st4w)
       | .ok model => (metricConst 0 model st4w.validationXs st4w.validationYs,
           { st4w with modelPtr := some model })) ∧
    TrainAndEvaluateWeighted trainWCount (trainConst 99) (metricConst 0) st4w =
      TrainAndEvaluateWeighted trainWCount (trainConst 98) (metricConst 0) st4w :=
  C3_weighted_dispatch_fixed_at_construction xs4 ys4 ws4 (1/2) st4w init4w
    trainWCount (trainConst 99) (trainConst 98) (metricConst 0)

/-- Claim C4 (amended): after any `Evaluate` call the stored model is
determined by the training phase alone — if training fails the previous
model is kept, but if training succeeds the stored model is replaced by
the newly trained one even when the metric then fails, so a metric
failure does overwrite the previously stored model. -/
theorem C4_amended_model_overwrite
    (train : List X → List Y → Except ε M)
    (trainWeighted : List X → List Y → List W → Except ε M)
    (metricEvaluate : M → List X → List Y → Except ε ℚ)
    (st : CVState X Y W M) :
    (TrainAndEvaluate train metricEvaluate st).2.modelPtr =
      (match train st.trainingXs st.trainingYs with
       | .error _ => st.modelPtr
       | .ok m => some m) ∧
    (TrainAndEvaluateWeighted trainWeighted train metricEvaluate st).2.modelPtr =
      (match (if 0 < st.trainingWeights.length then
          trainWeighted st.trainingXs st.trainingYs st.trainingWeights
        else train st.trainingXs st.trainingYs) with
       | .error _ => st.modelPtr
       | .ok m => some m) := by
  constructor
  · unfold TrainAndEvaluate
    rcases train st.trainingXs st.trainingYs with e | m <;> rfl
  · unfold TrainAndEvaluateWeighted
    rcases (if 0 < st.trainingWeights.length then
        trainWeighted st.trainingXs st.trainingYs st.trainingWeights
      else train st.trainingXs st.trainingYs) with e | m <;> rfl

theorem C4_counterexample :
    (Init xs4 ys4 (1/2) : Except CVError (CVState Nat Nat Nat Nat)) = .ok st4 ∧
    (TrainAndEvaluate (trainConst 5) (metricConst 0) st4).1 = .ok 0 ∧
    (TrainAndEvaluate (trainConst 5) (metricConst 0) st4).2.modelPtr = some 5 ∧
    (TrainAndEvaluate (trainConst 6) metricFail
        (TrainAndEvaluate (trainConst 5) (metricConst 0) st4).2).1 =
      .error "metric failure" ∧
    (TrainAndEvaluate (trainConst 6) metricFail
        (TrainAndEvaluate (trainConst 5) (metricConst 0) st4).2).2.modelPtr = some 6 ∧
    Model (TrainAndEvaluate (trainConst 6) metricFail
        (TrainAndEvaluate (trainConst 5) (metricConst 0) st4).2).2 = .ok 6 ∧
    (6 : Nat) ≠ 5 :=
  ⟨init4, rfl, rfl, rfl, rfl, rfl, by decide⟩

/-- Claim C5 (amended): `Model()` called on a freshly constructed object
— before any `Evaluate` call whose training phase succeeded — fails with
the logic error for the uninitialized model; after one successful
`Evaluate` it returns exactly the trained instance produced by that
call's training phase. -/
theorem C5_amended_model_access (xs : List X) (ys : List Y) (v : ℚ)
    (st : CVState X Y W M) (h : Init xs ys v = .ok st)
    (train : List X → List Y → Except ε M)
    (metricEvaluate : M → List X → List Y → Except ε ℚ) :
    Model st = .error (.logicError
      "SimpleCV::Model(): attempted to access an uninitialized model") ∧
    ∀ score st', TrainAndEvaluate train metricEvaluate st = (.ok score, st') →
      ∃ m, train st.trainingXs st.trainingYs = .ok m ∧ Model st' = .ok m := by
  obtain ⟨k, hc, hys, hk1, hkn, hst⟩ := Init_ok h
  constructor
  · rw [hst]
    rfl
  · intro score st' he
    unfold TrainAndEvaluate at he
    rcases ht : train st.trainingXs st.trainingYs with e | m
    · rw [ht] at he
      exact absurd (congrArg Prod.fst he) (by simp)
    · rw [ht] at he
      refine ⟨m, rfl, ?_⟩
      have : st' = { st with modelPtr := some m } := (congrArg Prod.snd he).symm
      rw [this]
      rfl

theorem C5_counterexample :
    (Init xs4 ys4 (1/2) : Except CVError (CVState Nat Nat Nat Nat)) = .ok st4 ∧
    Model st4 = .error (.logicError
      "SimpleCV::Model(): attempted to access an uninitialized model") ∧
    (TrainAndEvaluate (trainConst 6) metricFail st4).1 = .error "metric failure" ∧
    Model (TrainAndEvaluate (trainConst 6) metricFail st4).2 = .ok 6 :=
  ⟨init4, rfl, rfl, rfl⟩

theorem C5_amended_model_access_witness :
    (Model st4 = .error (.logicError
      "SimpleCV::Model(): attempted to access an uninitialized model") ∧
    ∀ score st', TrainAndEvaluate (trainConst 5) (metricConst 0) st4 = (.ok score, st') →
      ∃ m, trainConst 5 st4.trainingXs st4.trainingYs = .ok m ∧ Model st' = .ok m) :=
  C5_amended_model_access xs4 ys4 (1/2) st4 init4 (trainConst 5) (metricConst 0)

/-- Claim C6: the evaluator's observable state is `modelPtr`, abstracted
to `NoModel` (`none`) and `HasModel` (`some _`): every successful
`Evaluate` leaves the object in `HasModel` holding the newly trained
model (moving out of `NoModel` or replacing in `HasModel`); no call of
either `TrainAndEvaluate` overload, whatever its outcome, moves a
`HasModel` state back to `NoModel`; and after a second successful
`Evaluate` the stored model — what `Model()` returns — is the second
call's trained instance. -/
theorem C6_state_machine
    (train : List X → List Y → Except ε M)
    (trainWeighted : List X → List Y → List W → Except ε M)
    (metricEvaluate : M → List X → List Y → Except ε ℚ)
    (st : CVState X Y W M) :
    (∀ score st', TrainAndEvaluate train metricEvaluate st = (.ok score, st') →
      ∃ m, train st.trainingXs st.trainingYs = .ok m ∧ st'.modelPtr = some m) ∧
    (st.modelPtr.isSome →
      ((TrainAndEvaluate train metricEvaluate st).2).modelPtr.isSome) ∧
    (st.modelPtr.isSome →
      ((TrainAndEvaluateWeighted trainWeighted train metricEvaluate st).2).modelPtr.isSome) ∧
    (∀ (train2 : List X → List Y → Except ε M)
        (metric2 : M → List X → List Y → Except ε ℚ) score1 st1 score2 st2,
      TrainAndEvaluate train metricEvaluate st = (.ok score1, st1) →
      TrainAndEvaluate train2 metric2 st1 = (.ok score2, st2) →
      ∃ m2, train2 st1.trainingXs st1.trainingYs = .ok m2 ∧ Model st2 = .ok m2) := by
  have hfst : ∀ (tr : List X → List Y → Except ε M)
      (me : M → List X → List Y → Except ε ℚ) (s : CVState X Y W M) score s',
      TrainAndEvaluate tr me s = (.ok score, s') →
      ∃ m, tr s.trainingXs s.trainingYs = .ok m ∧ s' = { s with modelPtr := some m } := by
    intro tr me s score s' he
    unfold TrainAndEvaluate at he
    rcases ht : tr s.trainingXs s.trainingYs with e | m
    · rw [ht] at he
      exact absurd (congrArg Prod.fst he) (by simp)
    · rw [ht] at he
      exact ⟨m, rfl, (congrArg Prod.snd he).symm⟩
  refine ⟨?_, ?_, ?_, ?_⟩
  · intro score st' he
    obtain ⟨m, ht, hst'⟩ := hfst train metricEvaluate st score st' he
    exact ⟨m, ht, by rw [hst']⟩
  · intro hsome
    unfold TrainAndEvaluate
    rcases train st.trainingXs st.trainingYs with e | m
    · exact hsome
    · rfl
  · intro hsome
    unfold TrainAndEvaluateWeighted
    rcases (if 0 < st.trainingWeights.length then
        trainWeighted st.trainingXs st.trainingYs st.trainingWeights
      else train st.trainingXs st.trainingYs) with e | m
    · exact hsome
    · rfl
  · intro train2 metric2 score1 st1 score2 st2 h1 h2
    obtain ⟨m2, ht2, hst2⟩ := hfst train2 metric2 st1 score2 st2 h2
    refine ⟨m2, ht2, ?_⟩
    rw [hst2]
    rfl

theorem C6_state_machine_witness :
    (TrainAndEvaluate (trainConst 5) (metricConst 0) st4 = (.ok 0, st4With 5)) ∧
    (TrainAndEvaluate (trainConst 6) (metricConst 1) (st4With 5) = (.ok 1, st4With 6)) ∧
    ((st4With 5).modelPtr.isSome →
      ((TrainAndEvaluate (trainConst 6) (metricConst 1) (st4With 5)).2).modelPtr.isSome) ∧
    (∃ m2, trainConst 6 (st4With 5).trainingXs (st4With 5).trainingYs = .ok m2 ∧
      Model (st4With 6) = .ok m2) :=
  ⟨rfl, rfl,
    (C6_state_machine (trainConst 6) trainWCount (metricConst 1) (st4With 5)).2.1,
    (C6_state_machine (trainConst 5) trainWCount (metricConst 0) st4).2.2.2
      (trainConst 6) (metricConst 1) 0 (st4With 5) 1 (st4With 6) rfl rfl⟩

/-- Claim C7: the training point count is `k = round(N*(1-v))` with
round-half-away-from-zero tie-breaking: `N=10, v=0.3` gives `k=7` with
Training = points 0-6 and Validation = points 7-9; `N=4, v=0.5` gives
`k=2`; and the minimal valid case `N=2, v=0.5` gives `k=1` and its
construction succeeds.  The final conjunct is the tie-break rule: every
exact half-integer `n + 1/2` rounds up (away from zero). -/
theorem C7_rounding_concrete :
    CalculateAndAssertNumberOfTrainingPoints 10 (3/10) = .ok 7 ∧
    CalculateAndAssertNumberOfTrainingPoints 4 (1/2) = .ok 2 ∧
    CalculateAndAssertNumberOfTrainingPoints 2 (1/2) = .ok 1 ∧
    (Init xs10 xs10 (3/10) : Except CVError (CVState Nat Nat Nat Nat)) = .ok st10 ∧
    (Init xs2 ys2 (1/2) : Except CVError (CVState Nat Nat Nat Nat)) = .ok st2 ∧
    ∀ n : Nat, roundHalfAwayFromZero ((n : ℚ) + 1/2) = (n : Int) + 1 := by
  refine ⟨?_, ?_, ?_, ?_, ?_, ?_⟩
  · have h : ((10 : ℚ) * (1 - 3/10)) = 7 := by norm_num
    simp only [CalculateAndAssertNumberOfTrainingPoints, roundHalfAwayFromZero, h]
    norm_num
    rfl
  · have h : ((4 : ℚ) * (1 - 1/2)) = 2 := by norm_num
    simp only [CalculateAndAssertNumberOfTrainingPoints, roundHalfAwayFromZero, h]
    norm_num
    rfl
  · have h : ((2 : ℚ) * (1 - 1/2)) = 1 := by norm_num
    simp only [CalculateAndAssertNumberOfTrainingPoints, roundHalfAwayFromZero, h]
    norm_num
  · have h : ((10 : ℚ) * (1 - 3/10)) = 7 := by norm_num
    simp only [Init, AssertDataConsistency, initialState, InitTrainingAndValidationSets,
      CalculateAndAssertNumberOfTrainingPoints, roundHalfAwayFromZero, xs10, st10,
      List.length_cons, List.length_nil]
    norm_num [h, GetSubset]
    rfl
  · have h : ((2 : ℚ) * (1 - 1/2)) = 1 := by norm_num
    simp only [Init, AssertDataConsistency, initialState, InitTrainingAndValidationSets,
      CalculateAndAssertNumberOfTrainingPoints, roundHalfAwayFromZero, xs2, ys2, st2,
      List.length_cons, List.length_nil]
    norm_num [h, GetSubset]
  · intro n
    unfold roundHalfAwayFromZero
    rw [if_pos (by positivity)]
    have h : ((n : ℚ) + 1/2 + 1/2) = ((n + 1 : Int) : ℚ) := by
      push_cast
      ring
    rw [h, Int.floor_intCast]

/-- Claim C8: for every weighted construction that succeeds, the
training-weight slice has exactly the length of the training partition,
and the validation-side scoring call receives only the model and the
validation partitions — the score of a completed `Evaluate`, weighted or
not, is exactly the metric applied to `(model, validationXs,
validationYs)`, with no weights among its arguments. -/
theorem C8_training_weights_alignment
    (xs : List X) (ys : List Y) (ws : List W) (v : ℚ) (st : CVState X Y W M)
    (h : InitWeighted xs ys ws v = .ok st)
    (trainWeighted : List X → List Y → List W → Except ε M)
    (train : List X → List Y → Except ε M)
    (metricEvaluate : M → List X → List Y → Except ε ℚ) :
    st.trainingWeights.length = st.trainingXs.length ∧
    (∀ score, (TrainAndEvaluateWeighted trainWeighted train metricEvaluate st).1 =
        .ok score →
      ∃ m, (TrainAndEvaluateWeighted trainWeighted train metricEvaluate st).2.modelPtr =
          some m ∧
        metricEvaluate m st.validationXs st.validationYs = .ok score) ∧
    (∀ score, (TrainAndEvaluate train metricEvaluate st).1 = .ok score →
      ∃ m, (TrainAndEvaluate train metricEvaluate st).2.modelPtr = some m ∧
        metricEvaluate m st.validationXs st.validationYs = .ok score) := by
  obtain ⟨k, hc, hys, hws, hk1, hkn, hst⟩ := InitWeighted_ok h
  refine ⟨?_, ?_, ?_⟩
  · rw [hst]
    simp only [List.length_take]
    omega
  · intro score he
    unfold TrainAndEvaluateWeighted at he ⊢
    rcases hX : (if 0 < st.trainingWeights.length then
        trainWeighted st.trainingXs st.trainingYs st.trainingWeights
      else train st.trainingXs st.trainingYs) with e | m
    · rw [hX] at he
      exact absurd he (by simp)
    · rw [hX] at he
      exact ⟨m, rfl, he⟩
  · intro score he
    unfold TrainAndEvaluate at he ⊢
    rcases hX : train st.trainingXs st.trainingYs with e | m
    · rw [hX] at he
      exact absurd he (by simp)
    · rw [hX] at he
      exact ⟨m, rfl, he⟩

theorem C8_training_weights_alignment_witness :
    st4w.trainingWeights.length = st4w.trainingXs.length ∧
    (∀ score, (TrainAndEvaluateWeighted trainWCount (trainConst 99) (metricConst 0)
        st4w).1 = .ok score →
      ∃ m, (TrainAndEvaluateWeighted trainWCount (trainConst 99) (metricConst 0)
          st4w).2.modelPtr = some m ∧
        metricConst 0 m st4w.validationXs st4w.validationYs = .ok score) ∧
    (∀ score, (TrainAndEvaluate (trainConst 99) (metricConst 0) st4w).1 = .ok score →
      ∃ m, (TrainAndEvaluate (trainConst 99) (metricConst 0) st4w).2.modelPtr = some m ∧
        metricConst 0 m st4w.validationXs st4w.validationYs = .ok score) :=
  C8_training_weights_alignment xs4 ys4 ws4 (1/2) st4w init4w
    trainWCount (trainConst 99) (metricConst 0)

/-- Claim C9: `Evaluate` has no side effect on the object other than
storing the model: after either `TrainAndEvaluate` overload, whatever
the outcome, every member except `modelPtr` — the dataset and all four
partitions plus the training weights, all fixed at construction — is
unchanged, so repeated calls retrain and rescore without re-splitting. -/
theorem C9_no_other_side_effect
    (train : List X → List Y → Except ε M)
    (trainWeighted : List X → List Y → List W → Except ε M)
    (metricEvaluate : M → List X → List Y → Except ε ℚ)
    (st : CVState X Y W M) :
    ((TrainAndEvaluate train metricEvaluate st).2.xs = st.xs ∧
     (TrainAndEvaluate train metricEvaluate st).2.ys = st.ys ∧
     (TrainAndEvaluate train metricEvaluate st).2.weights = st.weights ∧
     (TrainAndEvaluate train metricEvaluate st).2.trainingXs = st.trainingXs ∧
     (TrainAndEvaluate train metricEvaluate st).2.trainingYs = st.trainingYs ∧
     (TrainAndEvaluate train metricEvaluate st).2.validationXs = st.validationXs ∧
     (TrainAndEvaluate train metricEvaluate st).2.validationYs = st.validationYs ∧
     (TrainAndEvaluate train metricEvaluate st).2.trainingWeights = st.trainingWeights) ∧
    ((TrainAndEvaluateWeighted trainWeighted train metricEvaluate st).2.xs = st.xs ∧
     (TrainAndEvaluateWeighted trainWeighted train metricEvaluate st).2.ys = st.ys ∧
     (TrainAndEvaluateWeighted trainWeighted train metricEvaluate st).2.weights =
       st.weights ∧
     (TrainAndEvaluateWeighted trainWeighted train metricEvaluate st).2.trainingXs =
       st.trainingXs ∧
     (TrainAndEvaluateWeighted trainWeighted train metricEvaluate st).2.trainingYs =
       st.trainingYs ∧
     (TrainAndEvaluateWeighted trainWeighted train metricEvaluate st).2.validationXs =
       st.validationXs ∧
     (TrainAndEvaluateWeighted trainWeighted train metricEvaluate st).2.validationYs =
       st.validationYs ∧
     (TrainAndEvaluateWeighted trainWeighted train metricEvaluate st).2.trainingWeights =
       st.trainingWeights) := by
  constructor
  · unfold TrainAndEvaluate
    rcases train st.trainingXs st.trainingYs with e | m <;>
      exact ⟨rfl, rfl, rfl, rfl, rfl, rfl, rfl, rfl⟩
  · unfold TrainAndEvaluateWeighted
    rcases (if 0 < st.trainingWeights.length then
        trainWeighted st.trainingXs st.trainingYs st.trainingWeights
      else train st.trainingXs st.trainingYs) with e | m <;>
      exact ⟨rfl, rfl, rfl, rfl, rfl, rfl, rfl, rfl⟩

/-- Claim C10 (implicit): under the checked preconditions every subset
extraction at construction is in bounds: `N ≥ 2` and `1 ≤ k ≤ N-1` make
the inclusive ranges `[0, k-1]`, `[k, N-1]` (the latter's upper bound
taken from the feature count, also for the target slice) and
`[0, trainingXs.length - 1]` valid for the sliced sequences, with no
underflow of `k-1` or `N-1`, and the slices have their full expected
lengths (no clamping occurs). -/
theorem C10_slices_in_bounds (xs : List X) (ys : List Y) (ws : List W) (v : ℚ) :
    (∀ st : CVState X Y W M, Init xs ys v = .ok st →
      ∃ k, CalculateAndAssertNumberOfTrainingPoints xs.length v = .ok k ∧
        1 ≤ k ∧ 2 ≤ xs.length ∧ k ≤ xs.length - 1 ∧
        subsetInBounds xs 0 (k - 1) ∧ subsetInBounds ys 0 (k - 1) ∧
        subsetInBounds xs k (xs.length - 1) ∧ subsetInBounds ys k (xs.length - 1) ∧
        st.trainingXs.length = k ∧ st.trainingYs.length = k ∧
        st.validationXs.length = xs.length - k ∧
        st.validationYs.length = xs.length - k) ∧
    (∀ st : CVState X Y W M, InitWeighted xs ys ws v = .ok st →
      ∃ k, CalculateAndAssertNumberOfTrainingPoints xs.length v = .ok k ∧
        subsetInBounds ws 0 (st.trainingXs.length - 1) ∧
        st.trainingXs.length = k ∧ st.trainingWeights.length = k) := by
  constructor
  · intro st h
    obtain ⟨k, hc, hys, hk1, hkn, hst⟩ := Init_ok h
    obtain ⟨hv0, hv1, hn2, hkdef, hk1b, hknb⟩ := calculate_ok_spec hc
    refine ⟨k, hc, hk1, hn2, by omega, ⟨by omega, by omega⟩, ⟨by omega, by omega⟩,
      ⟨by omega, by omega⟩, ⟨by omega, by omega⟩, ?_, ?_, ?_, ?_⟩ <;>
      rw [hst] <;> simp only [List.length_take, List.length_drop] <;> omega
  · intro st h
    obtain ⟨k, hc, hys, hws, hk1, hkn, hst⟩ := InitWeighted_ok h
    have hlen : st.trainingXs.length = k := by
      rw [hst]
      simp only [List.length_take]
      omega
    refine ⟨k, hc, ⟨by omega, by omega⟩, hlen, ?_⟩
    rw [hst]
    simp only [List.length_take]
    omega

theorem C10_slices_in_bounds_witness :
    (∃ k, CalculateAndAssertNumberOfTrainingPoints xs4.length (1/2) = .ok k ∧
      1 ≤ k ∧ 2 ≤ xs4.length ∧ k ≤ xs4.length - 1 ∧
      subsetInBounds xs4 0 (k - 1) ∧ subsetInBounds ys4 0 (k - 1) ∧
      subsetInBounds xs4 k (xs4.length - 1) ∧ subsetInBounds ys4 k (xs4.length - 1) ∧
      st4.trainingXs.length = k ∧ st4.trainingYs.length = k ∧
      st4.validationXs.length = xs4.length - k ∧
      st4.validationYs.length = xs4.length - k) ∧
    (∃ k, CalculateAndAssertNumberOfTrainingPoints xs4.length (1/2) = .ok k ∧
      subsetInBounds ws4 0 (st4w.trainingXs.length - 1) ∧
      st4w.trainingXs.length = k ∧ st4w.trainingWeights.length = k) :=
  ⟨(C10_slices_in_bounds xs4 ys4 ws4 (1/2)).1 st4 init4,
   (C10_slices_in_bounds xs4 ys4 ws4 (1/2)).2 st4w init4w⟩

end Claims

end SimpleCV
